import Mathlib

/-!
Verification development for the script execution engine of the
csv-light-editor repository (`src/app/src-tauri/src/ai_script/`).

The Rust sources are shallowly embedded as executable Lean definitions:

* `security.rs` — the deny-list regex patterns are embedded as token lists
  (`Tok`): each source regex only uses literal characters, `\s+` and `\s*`,
  so an exact executable matcher (`toksMatch` / `is_match`) captures
  `Regex::is_match` for these patterns.  Whitespace (`\s`) is modelled by the
  ASCII whitespace characters; the Unicode whitespace extension of the Rust
  regex crate is not modelled (all theorems and witnesses stay in ASCII).
* `executor.rs` — the child interpreter process is an oracle
  (`ChildBehavior`): spawn/stdin success flags, the list of stdout lines
  (each given together with its `serde_json` parse outcome) and the exit
  status plus captured stderr.  `tokio` concurrency is modelled by explicit
  inputs: the shared cancellation flag becomes the observation schedule
  `cancelAt : Nat → Bool` (its value at each read-loop check), `Utc::now()`
  becomes explicit clock arguments, `Uuid::new_v4` becomes a fresh-id
  argument, and a `JoinError` (panic inside the spawned runner task) becomes
  the `joinPanic` flag.  Side effects (temp-file creation/removal, process
  spawn/kill) are recorded in an event trace.
* `progress.rs` / `models.rs` — translated structurally; the `f64`
  percentage is modelled by `ℚ`, and `chrono` timestamps by `Nat`.
-/

namespace CsvEd

/-! ## Security validator (`ai_script/security.rs`)

Each dangerous pattern of `SecurityValidator::new` is a sequence of tokens:
a literal character, `\s+` (`ws1`) or `\s*` (`ws0`). -/

inductive Tok where
  | lit (c : Char)
  | ws1
  | ws0
deriving DecidableEq

/-- ASCII whitespace, the ASCII part of the regex class `\s`. -/
def isWs (c : Char) : Bool :=
  c == ' ' || c == '\t' || c == '\n' || c == '\x0b' || c == '\x0c' || c == '\r'

/-- Match the continuation `k` after consuming zero or more leading
whitespace characters (the backtracking semantics of `\s*`). -/
def wsSuffixMatch (k : List Char → Bool) : List Char → Bool
  | [] => k []
  | d :: ds => k (d :: ds) || (isWs d && wsSuffixMatch k ds)

/-- Does the token sequence match some prefix of the character list?
Backtracking gives the exact "exists a split" regex semantics. -/
def toksMatch : List Tok → List Char → Bool
  | [], _ => true
  | .lit c :: ts, cs =>
      match cs with
      | [] => false
      | d :: ds => c == d && toksMatch ts ds
  | .ws0 :: ts, cs => wsSuffixMatch (fun rest => toksMatch ts rest) cs
  | .ws1 :: ts, cs =>
      match cs with
      | [] => false
      | d :: ds => isWs d && wsSuffixMatch (fun rest => toksMatch ts rest) ds

/-- Unanchored match: the pattern matches starting at some position,
which is what `Regex::is_match` decides. -/
def matchesFrom (ts : List Tok) (cs : List Char) : Bool :=
  match cs with
  | [] => toksMatch ts []
  | c :: rest => toksMatch ts (c :: rest) || matchesFrom ts rest

def is_match (ts : List Tok) (cs : List Char) : Bool :=
  matchesFrom ts cs

def lits (s : String) : List Tok :=
  s.toList.map Tok.lit

/-- The 30 compiled patterns of `SecurityValidator::new`, each paired with
its source text (`Regex::as_str`, used in the violation message). -/
def dangerous_patterns : List (String × List Tok) :=
  [ -- File system operations
    ("import\\s+os", lits "import" ++ [Tok.ws1] ++ lits "os"),
    ("from\\s+os\\s+import", lits "from" ++ [Tok.ws1] ++ lits "os" ++ [Tok.ws1] ++ lits "import"),
    ("import\\s+shutil", lits "import" ++ [Tok.ws1] ++ lits "shutil"),
    ("from\\s+shutil\\s+import", lits "from" ++ [Tok.ws1] ++ lits "shutil" ++ [Tok.ws1] ++ lits "import"),
    ("open\\s*\\(", lits "open" ++ [Tok.ws0, Tok.lit '(']),
    ("file\\s*\\(", lits "file" ++ [Tok.ws0, Tok.lit '(']),
    -- Process execution
    ("import\\s+subprocess", lits "import" ++ [Tok.ws1] ++ lits "subprocess"),
    ("from\\s+subprocess\\s+import", lits "from" ++ [Tok.ws1] ++ lits "subprocess" ++ [Tok.ws1] ++ lits "import"),
    ("os\\.system\\s*\\(", lits "os.system" ++ [Tok.ws0, Tok.lit '(']),
    ("os\\.popen\\s*\\(", lits "os.popen" ++ [Tok.ws0, Tok.lit '(']),
    ("os\\.exec\\s*\\(", lits "os.exec" ++ [Tok.ws0, Tok.lit '(']),
    -- Dynamic code execution
    ("__import__\\s*\\(", lits "__import__" ++ [Tok.ws0, Tok.lit '(']),
    ("eval\\s*\\(", lits "eval" ++ [Tok.ws0, Tok.lit '(']),
    ("exec\\s*\\(", lits "exec" ++ [Tok.ws0, Tok.lit '(']),
    ("compile\\s*\\(", lits "compile" ++ [Tok.ws0, Tok.lit '(']),
    -- Network operations
    ("import\\s+urllib", lits "import" ++ [Tok.ws1] ++ lits "urllib"),
    ("import\\s+requests", lits "import" ++ [Tok.ws1] ++ lits "requests"),
    ("import\\s+http", lits "import" ++ [Tok.ws1] ++ lits "http"),
    ("import\\s+socket", lits "import" ++ [Tok.ws1] ++ lits "socket"),
    ("from\\s+urllib\\s+import", lits "from" ++ [Tok.ws1] ++ lits "urllib" ++ [Tok.ws1] ++ lits "import"),
    ("from\\s+requests\\s+import", lits "from" ++ [Tok.ws1] ++ lits "requests" ++ [Tok.ws1] ++ lits "import"),
    ("from\\s+http\\s+import", lits "from" ++ [Tok.ws1] ++ lits "http" ++ [Tok.ws1] ++ lits "import"),
    ("from\\s+socket\\s+import", lits "from" ++ [Tok.ws1] ++ lits "socket" ++ [Tok.ws1] ++ lits "import"),
    -- System operations
    ("import\\s+sys", lits "import" ++ [Tok.ws1] ++ lits "sys"),
    ("sys\\.exit\\s*\\(", lits "sys.exit" ++ [Tok.ws0, Tok.lit '(']),
    ("sys\\.modules", lits "sys.modules"),
    -- Other dangerous operations
    ("import\\s+ctypes", lits "import" ++ [Tok.ws1] ++ lits "ctypes"),
    ("import\\s+multiprocessing", lits "import" ++ [Tok.ws1] ++ lits "multiprocessing"),
    ("\\.__getattr__\\s*\\(", lits ".__getattr__" ++ [Tok.ws0, Tok.lit '(']),
    ("\\.__setattr__\\s*\\(", lits ".__setattr__" ++ [Tok.ws0, Tok.lit '(']) ]

/-- `SecurityValidator::validate_script`: the first matching pattern aborts
with an error naming the pattern; otherwise the script is accepted. -/
def validate_script (script : String) : Except String Unit :=
  match dangerous_patterns.find? (fun p => is_match p.2 script.toList) with
  | some p =>
      .error ("Security validation failed: Dangerous operation detected: " ++ p.1)
  | none => .ok ()

/-- `SecurityValidator::is_dangerous_operation`. -/
def is_dangerous_operation (script : String) : Bool :=
  dangerous_patterns.any (fun p => is_match p.2 script.toList)

example : is_dangerous_operation "import os" = true := by decide
example : is_dangerous_operation "import   sys" = true := by decide
example : is_dangerous_operation "x = eval (y)" = true := by decide
example : is_dangerous_operation "result = data" = false := by decide
example : validate_script "x = 1" = .ok () := rfl

/-! ## JSON values (`serde_json::Value`)

JSON numbers are modelled by `Int` (the engine only ever reads them through
`as_u64` and only ever writes unsigned integers; floating-point JSON
numbers are not modelled). -/

inductive Json where
  | null
  | bool (b : Bool)
  | num (n : Int)
  | str (s : String)
  | arr (elems : List Json)
  | obj (fields : List (String × Json))

/-- `serde_json::Value::get` on an object (objects built by the engine and
in the theorems have distinct keys, so first-match lookup is the map). -/
def Json.get (j : Json) (key : String) : Option Json :=
  match j with
  | .obj fields => (fields.find? (fun f => f.1 == key)).map (fun f => f.2)
  | _ => none

/-- `serde_json::Value::as_str`. -/
def Json.as_str : Json → Option String
  | .str s => some s
  | _ => none

/-- `serde_json::Value::as_u64`. -/
def Json.as_u64 : Json → Option Nat
  | .num (Int.ofNat n) => some n
  | _ => none

/-- `serde_json::Value::as_array`. -/
def Json.as_array : Json → Option (List Json)
  | .arr xs => some xs
  | _ => none

/-- JSON string escaping of `serde_json` (`\"`, `\\`, `\n`, `\r`, `\t`,
and `\u00XX` for the remaining control characters). -/
def escapeChar (c : Char) : String :=
  if c == '"' then "\\\""
  else if c == '\\' then "\\\\"
  else if c == '\n' then "\\n"
  else if c == '\r' then "\\r"
  else if c == '\t' then "\\t"
  else if c.toNat < 32 then
    let hex : Nat → Char := fun n => if n < 10 then Char.ofNat (48 + n) else Char.ofNat (87 + n)
    "\\u00" ++ String.mk [hex (c.toNat / 16), hex (c.toNat % 16)]
  else String.mk [c]

def renderString (s : String) : String :=
  "\"" ++ String.join (s.toList.map escapeChar) ++ "\""

mutual
/-- Compact rendering, `serde_json::Value::to_string`. -/
def Json.render : Json → String
  | .null => "null"
  | .bool true => "true"
  | .bool false => "false"
  | .num n => toString n
  | .str s => renderString s
  | .arr xs => "[" ++ renderElems xs ++ "]"
  | .obj fs => "\x7b" ++ renderFields fs ++ "\x7d"

def renderElems : List Json → String
  | [] => ""
  | [x] => Json.render x
  | x :: y :: xs => Json.render x ++ "," ++ renderElems (y :: xs)

def renderFields : List (String × Json) → String
  | [] => ""
  | [(k, v)] => renderString k ++ ":" ++ Json.render v
  | (k, v) :: f :: fs => renderString k ++ ":" ++ Json.render v ++ "," ++ renderFields (f :: fs)
end

def spaces : Nat → String
  | 0 => ""
  | n + 1 => " " ++ spaces n

mutual
/-- Pretty rendering with two-space indentation,
`serde_json::to_string_pretty`. -/
def Json.renderPretty (indent : Nat) : Json → String
  | .null => "null"
  | .bool true => "true"
  | .bool false => "false"
  | .num n => toString n
  | .str s => renderString s
  | .arr [] => "[]"
  | .arr (x :: xs) =>
      "[\n" ++ renderPrettyElems (indent + 2) (x :: xs) ++ "\n" ++ spaces indent ++ "]"
  | .obj [] => "\x7b\x7d"
  | .obj (f :: fs) =>
      "\x7b\n" ++ renderPrettyFields (indent + 2) (f :: fs) ++ "\n" ++ spaces indent ++ "\x7d"

def renderPrettyElems (indent : Nat) : List Json → String
  | [] => ""
  | [x] => spaces indent ++ Json.renderPretty indent x
  | x :: y :: xs =>
      spaces indent ++ Json.renderPretty indent x ++ ",\n" ++ renderPrettyElems indent (y :: xs)

def renderPrettyFields (indent : Nat) : List (String × Json) → String
  | [] => ""
  | [(k, v)] => spaces indent ++ renderString k ++ ": " ++ Json.renderPretty indent v
  | (k, v) :: f :: fs =>
      spaces indent ++ renderString k ++ ": " ++ Json.renderPretty indent v ++ ",\n"
        ++ renderPrettyFields indent (f :: fs)
end

/-! ## Data model (`ai_script/models.rs`) -/

/-- Legacy flat change record `DataChange`. -/
structure DataChange where
  row_index : Nat
  column_index : Nat
  old_value : String
  new_value : String
deriving DecidableEq

inductive ColumnPosition where
  | Before
  | After
deriving DecidableEq

inductive RowPosition where
  | Before
  | After
deriving DecidableEq

/-- Unified change record `Change` (serde tag `type`). -/
inductive Change where
  | Cell (row_index : Nat) (column_index : Nat) (old_value : String) (new_value : String)
  | AddColumn (column_index : Nat) (column_name : String) (position : ColumnPosition)
      (default_value : Option String)
  | RemoveColumn (column_index : Nat) (column_name : String)
  | RenameColumn (column_index : Nat) (old_name : String) (new_name : String)
  | AddRow (row_index : Nat) (position : RowPosition) (row_data : Option (List String))
  | RemoveRow (row_index : Nat)
deriving DecidableEq

structure ChangePreview where
  row_index : Nat
  column_index : Nat
  column_name : String
  old_value : String
  new_value : String
deriving DecidableEq

/-- `ResultPayload` (serde tag `type`): the final payload of a run. -/
inductive ResultPayload where
  | Analysis (summary : String) (details : Json)
  | Transformation (changes : Option (List DataChange))
      (unified_changes : Option (List Change)) (preview : List ChangePreview)
  | Error (message : String)

/-- `ExecutionResult` (timestamps as `Nat`). -/
structure ExecResult where
  execution_id : String
  started_at : Nat
  completed_at : Option Nat
  result : ResultPayload
  error : Option String

/-! ## Result interpreter (`ScriptExecutor::parse_result`)

`parse_result` receives the already-found result line; in the source the
line is re-parsed with `serde_json::from_str`, which succeeds because the
result-line scan only selects lines that parse — so the model takes the
parsed `Json` value directly. -/

def parseDataChangeItem (item : Json) : Option DataChange := do
  let row ← (item.get "row").bind Json.as_u64
  let col ← (item.get "col").bind Json.as_u64
  let old_value ← (item.get "old_value").bind Json.as_str
  let new_value ← (item.get "new_value").bind Json.as_str
  some ⟨row, col, old_value, new_value⟩

def parseChangePreviewItem (item : Json) : Option ChangePreview := do
  let row ← (item.get "row").bind Json.as_u64
  let col ← (item.get "col").bind Json.as_u64
  let column_name ← (item.get "column_name").bind Json.as_str
  let old_value ← (item.get "old_value").bind Json.as_str
  let new_value ← (item.get "new_value").bind Json.as_str
  some ⟨row, col, column_name, old_value, new_value⟩

def parse_result (json : Json) : Except String ResultPayload :=
  match (json.get "type").bind Json.as_str with
  | some "analysis" =>
      let summary :=
        match json.get "summary" with
        | some (.str s) => s
        | some (.obj fs) => Json.renderPretty 0 (.obj fs)
        | some (.arr xs) => Json.renderPretty 0 (.arr xs)
        | some v => v.render
        | none => "Analysis completed"
      let details := (json.get "details").getD (Json.obj [])
      .ok (.Analysis summary details)
  | some "transformation" =>
      let changes : List DataChange :=
        (((json.get "changes").bind Json.as_array).map
          (fun arr => arr.filterMap parseDataChangeItem)).getD []
      let preview : List ChangePreview :=
        (((json.get "preview").bind Json.as_array).map
          (fun arr => arr.filterMap parseChangePreviewItem)).getD []
      .ok (.Transformation (some changes) none preview)
  | some "error" =>
      let message := ((json.get "message").bind Json.as_str).getD "Unknown error"
      .ok (.Error message)
  | _ => .error "Unknown result type"

/-! ## Error classifier (`ScriptExecutor::parse_python_error`)

String helpers first: `rustLines` models `str::lines` (split at `\n` or
`\r\n`, final line ending optional), `containsStr` models `str::contains`
with a string pattern, `strStartsWith` models `str::starts_with`. -/

def listIsPrefixOf : List Char → List Char → Bool
  | [], _ => true
  | _ :: _, [] => false
  | a :: as, b :: bs => a == b && listIsPrefixOf as bs

def listIsInfixOf (pat s : List Char) : Bool :=
  match s with
  | [] => listIsPrefixOf pat []
  | c :: rest => listIsPrefixOf pat (c :: rest) || listIsInfixOf pat rest

/-- `haystack.contains(pat)` for string patterns. -/
def containsStr (s pat : String) : Bool :=
  listIsInfixOf pat.toList s.toList

/-- `s.starts_with(pat)` for string patterns. -/
def strStartsWith (s pat : String) : Bool :=
  listIsPrefixOf pat.toList s.toList

def splitOnChar (sep : Char) : List Char → List (List Char)
  | [] => [[]]
  | c :: rest =>
      let r := splitOnChar sep rest
      if c == sep then [] :: r
      else
        match r with
        | [] => [[c]]
        | h :: t => (c :: h) :: t

/-- Strip one trailing carriage return (the `\r` of a `\r\n` line ending). -/
def stripCRChars (l : List Char) : List Char :=
  match l.reverse with
  | '\r' :: rest => rest.reverse
  | _ => l

def rustLinesAux : List (List Char) → List (List Char)
  | [] => []
  | [last] => if last.isEmpty then [] else [last]
  | p :: q :: rest => stripCRChars p :: rustLinesAux (q :: rest)

/-- `str::lines`: split at `\n` or `\r\n`; the final line ending is
optional and produces no trailing empty line. -/
def rustLines (s : String) : List String :=
  (rustLinesAux (splitOnChar '\n' s.toList)).map (fun l => String.mk l)

/-- `str::trim` (ASCII whitespace; the Unicode extension is not modelled). -/
def strTrim (s : String) : String :=
  String.mk (((s.toList.dropWhile Char.isWhitespace).reverse.dropWhile Char.isWhitespace).reverse)

def strIsEmpty (s : String) : Bool :=
  s.toList.isEmpty

def strIntercalate (sep : String) : List String → String
  | [] => ""
  | [x] => x
  | x :: y :: rest => x ++ sep ++ strIntercalate sep (y :: rest)

example : rustLines "a\r\nb\n" = ["a", "b"] := by decide
example : rustLines "" = [] := by decide
example : rustLines "a\n\n" = ["a", ""] := by decide

/-- One iteration of the `for line in &error_lines` loop of
`parse_python_error`: the first matching marker of this line produces the
classified message (searching all of `error_lines` for detail lines),
`none` means this line matches no marker. -/
def classify_line (error_lines : List String) (line : String) : Option String :=
  if containsStr line "IndentationError" then some (
    match error_lines.find? (fun l =>
        containsStr l "unexpected indent" || containsStr l "expected an indented block") with
    | some detail =>
        "Python indentation error: The generated script has incorrect indentation. This is usually caused by the AI model generating code with inconsistent spacing. Please try regenerating the script.\n\nDetails: "
          ++ strTrim detail
    | none =>
        "Python indentation error: The generated script has incorrect indentation. Please try regenerating the script.")
  else if containsStr line "SyntaxError" then some (
    match error_lines.find? (fun l => containsStr l "invalid syntax") with
    | some detail =>
        "Python syntax error: The generated script contains invalid syntax.\n\nDetails: "
          ++ strTrim detail
    | none =>
        "Python syntax error: The generated script contains invalid syntax. Please try regenerating the script.")
  else if containsStr line "NameError" then some (
    match error_lines.find? (fun l => containsStr l "is not defined") with
    | some detail =>
        let error_msg :=
          match error_lines.find? (fun l => containsStr l "NameError:") with
          | some msg_line => strTrim msg_line
          | none => strTrim detail
        "Python name error: A variable or function is used but not defined. This usually means the generated script is missing variable definitions or has incorrect variable names.\n\nDetails: "
          ++ error_msg
    | none =>
        "Python name error: A variable or function is used but not defined. Please try regenerating the script.")
  else if containsStr line "TypeError" then some (
    match error_lines.find? (fun l =>
        containsStr l "unsupported operand" || containsStr l "not supported") with
    | some detail =>
        "Python type error: An operation is performed on incompatible types.\n\nDetails: "
          ++ strTrim detail
    | none =>
        "Python type error: An operation is performed on incompatible types. Please try regenerating the script.")
  else if containsStr line "AttributeError" then some (
    match error_lines.find? (fun l => containsStr l "has no attribute") with
    | some detail =>
        "Python attribute error: An object doesn\'t have the expected attribute.\n\nDetails: "
          ++ strTrim detail
    | none =>
        "Python attribute error: An object doesn\'t have the expected attribute. Please try regenerating the script.")
  else if containsStr line "ValueError" then some (
    match error_lines.find? (fun l =>
        containsStr l "time data" && containsStr l "does not match format") with
    | some detail =>
        "Data format error: The script expected a different date/time format than what\'s in your CSV data. The generated script may need to be adjusted to match your actual data format.\n\nDetails: "
          ++ strTrim detail
    | none =>
        match error_lines.find? (fun l => containsStr l "ValueError") with
        | some detail =>
            let error_msg :=
              match error_lines.find? (fun l => strStartsWith l "ValueError:") with
              | some msg_line => strTrim msg_line
              | none => strTrim detail
            "Data value error: The script encountered invalid data values.\n\nDetails: "
              ++ error_msg
        | none =>
            "Python value error: The script encountered invalid data values. Please check your CSV data or try regenerating the script.")
  else if containsStr line "KeyError" then some (
    match error_lines.find? (fun l => containsStr l "KeyError") with
    | some detail =>
        let error_msg :=
          match error_lines.find? (fun l => strStartsWith l "KeyError:") with
          | some msg_line => strTrim msg_line
          | none => strTrim detail
        "Data key error: The script tried to access a column or key that doesn\'t exist in your data.\n\nDetails: "
          ++ error_msg
    | none =>
        "Python key error: The script tried to access a column or key that doesn\'t exist. Please check your CSV data or try regenerating the script.")
  else if containsStr line "IndexError" then some (
    match error_lines.find? (fun l => containsStr l "IndexError") with
    | some detail =>
        let error_msg :=
          match error_lines.find? (fun l => strStartsWith l "IndexError:") with
          | some msg_line => strTrim msg_line
          | none => strTrim detail
        "Data index error: The script tried to access a row or column index that doesn\'t exist.\n\nDetails: "
          ++ error_msg
    | none =>
        "Python index error: The script tried to access a row or column index that doesn\'t exist. Please check your CSV data or try regenerating the script.")
  else none

/-- `ScriptExecutor::parse_python_error`: the `for` loop with early
`return`s is the first line classified by `classify_line`; if no line
matches a marker, fall back to the first five non-empty trimmed lines. -/
def parse_python_error (stderr : String) : String :=
  let error_lines := rustLines stderr
  match error_lines.findSome? (classify_line error_lines) with
  | some msg => msg
  | none =>
      let error_summary := strIntercalate "\n"
        (((error_lines.take 5).map strTrim).filter (fun l => !(strIsEmpty l)))
      if strIsEmpty error_summary then
        "Script execution failed. Please check the generated script for errors."
      else
        "Script execution failed:\n\n" ++ error_summary

/-! ## Progress tracker (`ai_script/progress.rs`)

`Utc::now()` is an explicit `now : Nat` argument; the `f64` percentage is
modelled by `ℚ`. -/

structure ExecutionProgress where
  execution_id : String
  processed_rows : Nat
  total_rows : Nat
  current_step : String
  progress_percentage : ℚ
  estimated_remaining_seconds : Option Nat
  started_at : Nat
  last_updated : Nat
deriving DecidableEq

/-- `ExecutionProgress::new`. -/
def ExecutionProgress.new (execution_id : String) (total_rows : Nat) (now : Nat) :
    ExecutionProgress :=
  { execution_id := execution_id
    processed_rows := 0
    total_rows := total_rows
    current_step := "Initializing"
    progress_percentage := 0
    estimated_remaining_seconds := none
    started_at := now
    last_updated := now }

/-- `ExecutionProgress::update`. -/
def ExecutionProgress.update (p : ExecutionProgress) (processed : Nat) (step : String)
    (now : Nat) : ExecutionProgress :=
  { p with
    processed_rows := processed
    current_step := step
    progress_percentage :=
      if 0 < p.total_rows then (processed : ℚ) / (p.total_rows : ℚ) * 100 else 0
    last_updated := now }

/-! ## Process runner (`ScriptExecutor::execute_script_internal`)

A stdout line is either a successful read carrying its `serde_json` parse
outcome (`none` = the line is not valid JSON) or a read error. -/

inductive RLine where
  | line (j : Option Json)
  | readErr

def RLine.isReadErr : RLine → Bool
  | .readErr => true
  | .line _ => false

def RLine.toJson : RLine → Option Json
  | .line j => j
  | .readErr => none

/-- Side effects recorded by the model of `execute_script`. -/
inductive Event where
  | validateFail
  | tempCreate
  | spawn
  | kill
  | tempRemove
deriving DecidableEq

/-- The child interpreter process, as the engine observes it. -/
structure ChildBehavior where
  spawnOk : Bool
  stdinOk : Bool
  lines : List RLine
  exitSuccess : Bool
  stderr : String

def is_progress_type (oj : Option Json) : Bool :=
  match oj with
  | some j => (j.get "type").bind Json.as_str == some "progress"
  | none => false

def progress_fields (j : Json) : Option (Nat × Nat × String) :=
  match (j.get "processed").bind Json.as_u64, (j.get "total").bind Json.as_u64,
      (j.get "step").bind Json.as_str with
  | some p, some t, some s => some (p, t, s)
  | _, _, _ => none

/-- The effect of one stdout line on the shared progress tracker: a
`progress`-typed line with all three fields updates it, every other line
leaves it unchanged. -/
def step_line (clock : Nat → Nat) (i : Nat) (prog : ExecutionProgress)
    (oj : Option Json) : ExecutionProgress :=
  if is_progress_type oj then
    match oj with
    | some j =>
        match progress_fields j with
        | some (p, _t, s) => prog.update p s (clock i)
        | none => prog
    | none => prog
  else prog

/-- The `for line in reader.lines()` loop of `execute_script_internal`:
before each line the cancellation flag is checked (killing the child and
failing with "Execution cancelled" if set), every successfully read line is
buffered, and progress lines additionally update the tracker. -/
def stream_loop (cancelAt : Nat → Bool) (clock : Nat → Nat) :
    Nat → List RLine → List (Option Json) → ExecutionProgress →
    Except String (List (Option Json)) × ExecutionProgress × List Event
  | _, [], buf, prog => (.ok buf, prog, [])
  | i, l :: rest, buf, prog =>
      if cancelAt i then (.error "Execution cancelled", prog, [.kill])
      else
        match l with
        | .readErr => (.error "Failed to read line from stdout", prog, [])
        | .line oj =>
            stream_loop cancelAt clock (i + 1) rest (buf ++ [oj]) (step_line clock i prog oj)

def is_result_candidate (oj : Option Json) : Bool :=
  match oj with
  | some j => !((j.get "type").bind Json.as_str == some "progress")
  | none => false

/-- The result-line scan: the last buffered line that parses as JSON and
whose `type` is not `progress`. -/
def find_result_line (buf : List (Option Json)) : Option Json :=
  match buf.reverse.find? is_result_candidate with
  | some (some j) => some j
  | _ => none

/-- `ScriptExecutor::execute_script_internal`.  `started_at`/`completed_at`
are the `Utc::now()` values at entry and after process exit; stdin-write
failures are abstracted by `stdinOk` (the source propagates the io error). -/
def execute_script_internal (execution_id : String) (child : ChildBehavior)
    (cancelAt : Nat → Bool) (clock : Nat → Nat) (prog0 : ExecutionProgress)
    (started_at completed_at : Nat) :
    Except String ExecResult × List Event × ExecutionProgress :=
  if child.spawnOk = false then
    (.error "Failed to start Python process", [], prog0)
  else if child.stdinOk = false then
    (.error "Failed to write to stdin", [.spawn], prog0)
  else
    match stream_loop cancelAt clock 0 child.lines [] prog0 with
    | (.error e, prog1, evs) => (.error e, .spawn :: evs, prog1)
    | (.ok buf, prog1, evs) =>
        if child.exitSuccess then
          match find_result_line buf with
          | none => (.error "No result found in script output", .spawn :: evs, prog1)
          | some j =>
              match parse_result j with
              | .error e => (.error e, .spawn :: evs, prog1)
              | .ok payload =>
                  (.ok { execution_id := execution_id, started_at := started_at,
                         completed_at := some completed_at, result := payload, error := none },
                   .spawn :: evs, prog1)
        else
          (.ok { execution_id := execution_id, started_at := started_at,
                 completed_at := some completed_at,
                 result := .Error (parse_python_error child.stderr),
                 error := some "Script execution failed" },
           .spawn :: evs, prog1)

/-! ## Executor registry and orchestration (`ScriptExecutor`) -/

/-- An entry of the `active_executions` map: the progress tracker and the
shared cancellation flag (the `JoinHandle` is not modelled). -/
structure ActiveExec where
  progress : ExecutionProgress
  cancelled : Bool

abbrev Registry := String → Option ActiveExec

def Registry.insert (r : Registry) (id : String) (e : ActiveExec) : Registry :=
  fun k => if k = id then some e else r k

def Registry.erase (r : Registry) (id : String) : Registry :=
  fun k => if k = id then none else r k

/-- `ScriptExecutor::get_progress`. -/
def get_progress (r : Registry) (execution_id : String) : Option ExecutionProgress :=
  (r execution_id).map (fun e => e.progress)

/-- `ScriptExecutor::cancel_execution`: on a registered id it sets the
shared cancellation flag and succeeds, otherwise it fails. -/
def cancel_execution (r : Registry) (execution_id : String) :
    Except String Registry :=
  match r execution_id with
  | some e => .ok (Registry.insert r execution_id { e with cancelled := true })
  | none => .error "Execution not found"

/-- `ScriptExecutor::execute_script`.  `execution_id` models the fresh
`Uuid::new_v4`, `tempOk` the outcome of `create_temp_script`, `joinPanic`
a `JoinError` (panic inside the spawned runner task, which loses the
result of the task is lost).  The source removes the registry entry before awaiting the
handle, so the entry is gone on every path that registered it. -/
def execute_script (script_content : String) (_headers : List String)
    (rows : List (List String)) (execution_id : String) (tempOk : Bool)
    (child : ChildBehavior) (cancelAt : Nat → Bool) (clock : Nat → Nat)
    (joinPanic : Bool) (startTime endTime : Nat) (reg : Registry) :
    Except String ExecResult × List Event × Registry :=
  match validate_script script_content with
  | .error e => (.error e, [.validateFail], reg)
  | .ok _ =>
      let total_rows := rows.length
      let prog0 := ExecutionProgress.new execution_id total_rows startTime
      if tempOk = false then (.error "Failed to create temp script", [], reg)
      else
        let out := execute_script_internal execution_id child cancelAt clock prog0
          startTime endTime
        let reg1 := Registry.erase
          (Registry.insert reg execution_id { progress := prog0, cancelled := false })
          execution_id
        if joinPanic then
          (.error "Task execution failed", .tempCreate :: out.2.1, reg1)
        else
          (out.1, (.tempCreate :: out.2.1) ++ [.tempRemove], reg1)

/-! ## Serde round-trip model for `ResultPayload` (`models.rs` derives)

`toJson` follows the derived `Serialize` impls: internal tag `type`,
`rename_all = "camelCase"` on the structs, `skip_serializing_if =
"Option::is_none"` on the two change lists of `Transformation` (a `None`
of any other `Option` field serializes as `null`).  `fromJson` follows the
derived `Deserialize` impls: a missing `Option` field is `None`, and the
`alias` attributes accept the snake_case names as well. -/

def ColumnPosition.toJson : ColumnPosition → Json
  | .Before => .str "before"
  | .After => .str "after"

def RowPosition.toJson : RowPosition → Json
  | .Before => .str "before"
  | .After => .str "after"

def optStrToJson : Option String → Json
  | none => .null
  | some s => .str s

def optRowToJson : Option (List String) → Json
  | none => .null
  | some xs => .arr (xs.map Json.str)

def DataChange.toJson (c : DataChange) : Json :=
  .obj [("rowIndex", .num c.row_index), ("columnIndex", .num c.column_index),
        ("oldValue", .str c.old_value), ("newValue", .str c.new_value)]

def Change.toJson : Change → Json
  | .Cell r c o n =>
      .obj [("type", .str "cell"), ("row_index", .num r), ("column_index", .num c),
            ("old_value", .str o), ("new_value", .str n)]
  | .AddColumn ci cn pos dv =>
      .obj [("type", .str "add_column"), ("column_index", .num ci),
            ("column_name", .str cn), ("position", pos.toJson),
            ("default_value", optStrToJson dv)]
  | .RemoveColumn ci cn =>
      .obj [("type", .str "remove_column"), ("column_index", .num ci),
            ("column_name", .str cn)]
  | .RenameColumn ci o n =>
      .obj [("type", .str "rename_column"), ("column_index", .num ci),
            ("old_name", .str o), ("new_name", .str n)]
  | .AddRow ri pos rd =>
      .obj [("type", .str "add_row"), ("row_index", .num ri),
            ("position", pos.toJson), ("row_data", optRowToJson rd)]
  | .RemoveRow ri =>
      .obj [("type", .str "remove_row"), ("row_index", .num ri)]

def ChangePreview.toJson (c : ChangePreview) : Json :=
  .obj [("rowIndex", .num c.row_index), ("columnIndex", .num c.column_index),
        ("columnName", .str c.column_name), ("oldValue", .str c.old_value),
        ("newValue", .str c.new_value)]

def ResultPayload.toJson : ResultPayload → Json
  | .Analysis s d =>
      .obj [("type", .str "analysis"), ("summary", .str s), ("details", d)]
  | .Transformation chs uchs pv =>
      .obj ([("type", Json.str "transformation")]
        ++ (match chs with
            | none => []
            | some cs => [("changes", Json.arr (cs.map DataChange.toJson))])
        ++ (match uchs with
            | none => []
            | some us => [("unified_changes", Json.arr (us.map Change.toJson))])
        ++ [("preview", Json.arr (pv.map ChangePreview.toJson))])
  | .Error m =>
      .obj [("type", .str "error"), ("message", .str m)]

/-- Field access accepting the serde `alias` as well. -/
def Json.getField (j : Json) (name alias2 : String) : Option Json :=
  match j.get name with
  | some v => some v
  | none => j.get alias2

def ColumnPosition.fromJson (j : Json) : Option ColumnPosition :=
  match j with
  | .str "before" => some .Before
  | .str "after" => some .After
  | _ => none

def RowPosition.fromJson (j : Json) : Option RowPosition :=
  match j with
  | .str "before" => some .Before
  | .str "after" => some .After
  | _ => none

/-- Elementwise traversal of a JSON list (the sequence deserialization of
serde: the first failing element fails the list). -/
def optMapM {α β : Type} (g : α → Option β) : List α → Option (List β)
  | [] => some []
  | x :: xs => (g x).bind (fun y => (optMapM g xs).map (fun ys => y :: ys))

/-- An optional string field: missing or `null` is `None`. -/
def optStrField (j : Json) (name alias2 : String) : Option (Option String) :=
  match j.getField name alias2 with
  | none => some none
  | some .null => some none
  | some (.str s) => some (some s)
  | some _ => none

def optRowField (j : Json) (name alias2 : String) : Option (Option (List String)) :=
  match j.getField name alias2 with
  | none => some none
  | some .null => some none
  | some (.arr xs) => (optMapM Json.as_str xs).map some
  | some _ => none

def DataChange.fromJson (j : Json) : Option DataChange := do
  let r ← (j.getField "rowIndex" "row_index").bind Json.as_u64
  let c ← (j.getField "columnIndex" "column_index").bind Json.as_u64
  let o ← (j.getField "oldValue" "old_value").bind Json.as_str
  let n ← (j.getField "newValue" "new_value").bind Json.as_str
  some ⟨r, c, o, n⟩

def Change.fromJson (j : Json) : Option Change :=
  match (j.get "type").bind Json.as_str with
  | some "cell" => do
      let r ← (j.get "row_index").bind Json.as_u64
      let c ← (j.get "column_index").bind Json.as_u64
      let o ← (j.get "old_value").bind Json.as_str
      let n ← (j.get "new_value").bind Json.as_str
      some (.Cell r c o n)
  | some "add_column" => do
      let ci ← (j.get "column_index").bind Json.as_u64
      let cn ← (j.get "column_name").bind Json.as_str
      let pos ← (j.get "position").bind ColumnPosition.fromJson
      let dv ← optStrField j "default_value" "default_value"
      some (.AddColumn ci cn pos dv)
  | some "remove_column" => do
      let ci ← (j.get "column_index").bind Json.as_u64
      let cn ← (j.get "column_name").bind Json.as_str
      some (.RemoveColumn ci cn)
  | some "rename_column" => do
      let ci ← (j.get "column_index").bind Json.as_u64
      let o ← (j.get "old_name").bind Json.as_str
      let n ← (j.get "new_name").bind Json.as_str
      some (.RenameColumn ci o n)
  | some "add_row" => do
      let ri ← (j.get "row_index").bind Json.as_u64
      let pos ← (j.get "position").bind RowPosition.fromJson
      let rd ← optRowField j "row_data" "row_data"
      some (.AddRow ri pos rd)
  | some "remove_row" => do
      let ri ← (j.get "row_index").bind Json.as_u64
      some (.RemoveRow ri)
  | _ => none

def ChangePreview.fromJson (j : Json) : Option ChangePreview := do
  let r ← (j.getField "rowIndex" "row_index").bind Json.as_u64
  let c ← (j.getField "columnIndex" "column_index").bind Json.as_u64
  let cn ← (j.getField "columnName" "column_name").bind Json.as_str
  let o ← (j.getField "oldValue" "old_value").bind Json.as_str
  let n ← (j.getField "newValue" "new_value").bind Json.as_str
  some ⟨r, c, cn, o, n⟩

/-- An optional list field of `Transformation`: missing or `null` is
`None`, an array is traversed elementwise. -/
def optListField {α : Type} (j : Json) (name : String) (f : Json → Option α) :
    Option (Option (List α)) :=
  match j.get name with
  | none => some none
  | some .null => some none
  | some (.arr xs) => (optMapM f xs).map some
  | some _ => none

def ResultPayload.fromJson (j : Json) : Option ResultPayload :=
  match (j.get "type").bind Json.as_str with
  | some "analysis" => do
      let s ← (j.get "summary").bind Json.as_str
      let d ← j.get "details"
      some (.Analysis s d)
  | some "transformation" => do
      let chs ← optListField j "changes" DataChange.fromJson
      let uchs ← optListField j "unified_changes" Change.fromJson
      let pvj ← (j.get "preview").bind Json.as_array
      let pv ← optMapM ChangePreview.fromJson pvj
      some (.Transformation chs uchs pv)
  | some "error" => do
      let m ← (j.get "message").bind Json.as_str
      some (.Error m)
  | _ => none

/-! ## Theorems -/

/-- C10: `ExecutionProgress::update` modifies only `processed_rows`,
`current_step`, `progress_percentage` and `last_updated`; the fields
`execution_id`, `total_rows`, `started_at` and
`estimated_remaining_seconds` keep their previous values. -/
theorem update_frame (p : ExecutionProgress) (n : Nat) (s : String) (now : Nat) :
    (p.update n s now).execution_id = p.execution_id ∧
    (p.update n s now).total_rows = p.total_rows ∧
    (p.update n s now).started_at = p.started_at ∧
    (p.update n s now).estimated_remaining_seconds = p.estimated_remaining_seconds ∧
    (p.update n s now).processed_rows = n ∧
    (p.update n s now).current_step = s ∧
    (p.update n s now).last_updated = now :=
  ⟨rfl, rfl, rfl, rfl, rfl, rfl, rfl⟩

/-- C6: `ExecutionProgress::new` yields zero processed rows, percentage 0
and step "Initializing"; every `update` recomputes the percentage as
`processed / total_rows * 100` when `total_rows > 0` and as 0 when
`total_rows = 0`, independently of the previous state — so in particular
the percentage may decrease or exceed 100 (no thresholding, smoothing or
monotonicity enforcement), as the concrete runs in the last conjunct show. -/
theorem progress_percentage_formula :
    (∀ id total t, (ExecutionProgress.new id total t).processed_rows = 0 ∧
      (ExecutionProgress.new id total t).progress_percentage = 0 ∧
      (ExecutionProgress.new id total t).current_step = "Initializing") ∧
    (∀ (p : ExecutionProgress) (n : Nat) (s : String) (now : Nat), 0 < p.total_rows →
      (p.update n s now).progress_percentage = (n : ℚ) / (p.total_rows : ℚ) * 100) ∧
    (∀ (p : ExecutionProgress) (n : Nat) (s : String) (now : Nat), p.total_rows = 0 →
      (p.update n s now).progress_percentage = 0) ∧
    (((ExecutionProgress.new "e" 10 0).update 5 "a" 1).progress_percentage = 50 ∧
     (((ExecutionProgress.new "e" 10 0).update 5 "a" 1).update 1 "b" 2).progress_percentage = 10 ∧
     ((ExecutionProgress.new "e" 10 0).update 20 "c" 3).progress_percentage = 200) := by
  refine ⟨fun id total t => ⟨rfl, rfl, rfl⟩, ?_, ?_, ?_, ?_, ?_⟩
  · intro p n s now h
    simp [ExecutionProgress.update, h]
  · intro p n s now h
    simp [ExecutionProgress.update, h]
  · norm_num [ExecutionProgress.new, ExecutionProgress.update]
  · norm_num [ExecutionProgress.new, ExecutionProgress.update]
  · norm_num [ExecutionProgress.new, ExecutionProgress.update]

/-- Witness for C6: the percentage formula applied at a concrete tracker. -/
theorem progress_percentage_formula_witness :
    0 < (ExecutionProgress.new "w" 4 0).total_rows ∧
    ((ExecutionProgress.new "w" 4 0).update 1 "s" 1).progress_percentage =
      (1 : ℚ) / ((ExecutionProgress.new "w" 4 0).total_rows : ℚ) * 100 :=
  ⟨by norm_num [ExecutionProgress.new],
   progress_percentage_formula.2.1 (ExecutionProgress.new "w" 4 0) 1 "s" 1
     (by norm_num [ExecutionProgress.new])⟩

/-- C9: the boolean pre-check `is_dangerous_operation` and the validating
entry point `validate_script` of the `SecurityValidator` agree on all
script texts. -/
theorem dangerous_iff_validate_err (s : String) :
    is_dangerous_operation s = true ↔ validate_script s ≠ .ok () := by
  unfold is_dangerous_operation validate_script
  cases h : dangerous_patterns.find? (fun p => is_match p.2 s.toList) with
  | none =>
      simp only [h]
      constructor
      · intro hany
        obtain ⟨x, hx, hpx⟩ := List.any_eq_true.mp hany
        exact absurd hpx (by simpa using List.find?_eq_none.mp h x hx)
      · intro hne; exact absurd rfl hne
  | some q =>
      simp only [h]
      constructor
      · intro _; simp
      · intro _
        refine List.any_eq_true.mpr ⟨q, List.mem_of_find?_eq_some h, ?_⟩
        exact List.find?_some (p := fun r : String × List Tok => is_match r.2 s.toList) h

/-- C7: once `execute_script` has run an execution (validation passed, temp
file created), its entry is gone from the registry it returns — the source
removes the entry before awaiting the handle — and for every id not present
in a registry, `get_progress` returns `none` and `cancel_execution` fails
with "Execution not found". -/
theorem registry_removal_and_not_found :
    (∀ (script : String) (hs : List String) (rows : List (List String)) (id : String)
       (child : ChildBehavior) (cancelAt : Nat → Bool) (clock : Nat → Nat) (jp : Bool)
       (t1 t2 : Nat) (reg : Registry),
       validate_script script = .ok () →
       (execute_script script hs rows id true child cancelAt clock jp t1 t2 reg).2.2 id = none) ∧
    (∀ (reg : Registry) (id : String), reg id = none → get_progress reg id = none) ∧
    (∀ (reg : Registry) (id : String), reg id = none →
       cancel_execution reg id = .error "Execution not found") := by
  refine ⟨?_, ?_, ?_⟩
  · intro script hs rows id child cancelAt clock jp t1 t2 reg hv
    simp only [execute_script, hv]
    cases jp <;> simp [Registry.erase]
  · intro reg id h
    simp [get_progress, h]
  · intro reg id h
    simp [cancel_execution, h]

def benignChild : ChildBehavior :=
  { spawnOk := true, stdinOk := true, lines := [], exitSuccess := true, stderr := "" }

/-- Witness for C7 at concrete inputs. -/
theorem registry_removal_and_not_found_witness :
    (execute_script "x = 1" [] [] "idw" true benignChild (fun _ => false) (fun _ => 0)
        false 0 0 (fun _ => none)).2.2 "idw" = none ∧
    get_progress (fun _ => none) "ghost" = none ∧
    cancel_execution (fun _ => none) "ghost" = .error "Execution not found" :=
  ⟨registry_removal_and_not_found.1 "x = 1" [] [] "idw" benignChild (fun _ => false)
      (fun _ => 0) false 0 0 (fun _ => none) rfl,
   registry_removal_and_not_found.2.1 (fun _ => none) "ghost" rfl,
   registry_removal_and_not_found.2.2 (fun _ => none) "ghost" rfl⟩

/-- C1: when some deny-list pattern matches the script (the first being the
one `find?` returns), `validate_script` fails naming that pattern, and
`execute_script` returns the same error with a trace containing neither a
temp-file creation nor a spawn — validation runs strictly first, so no
process is ever created.  A script matching no pattern validates `Ok`. -/
theorem validate_blocks_execution :
    (∀ (s : String) (p : String × List Tok),
       dangerous_patterns.find? (fun q => is_match q.2 s.toList) = some p →
       validate_script s =
         .error ("Security validation failed: Dangerous operation detected: " ++ p.1) ∧
       ∀ (hs : List String) (rows : List (List String)) (id : String) (tempOk : Bool)
         (child : ChildBehavior) (cancelAt : Nat → Bool) (clock : Nat → Nat) (jp : Bool)
         (t1 t2 : Nat) (reg : Registry),
         execute_script s hs rows id tempOk child cancelAt clock jp t1 t2 reg =
           (.error ("Security validation failed: Dangerous operation detected: " ++ p.1),
            [Event.validateFail], reg) ∧
         Event.spawn ∉ (execute_script s hs rows id tempOk child cancelAt clock jp t1 t2 reg).2.1 ∧
         Event.tempCreate ∉ (execute_script s hs rows id tempOk child cancelAt clock jp t1 t2 reg).2.1) ∧
    (∀ s : String, is_dangerous_operation s = true →
       (dangerous_patterns.find? (fun q => is_match q.2 s.toList)).isSome = true) ∧
    (∀ s : String, is_dangerous_operation s = false → validate_script s = .ok ()) := by
  refine ⟨?_, ?_, ?_⟩
  · intro s p hfind
    have hval : validate_script s =
        .error ("Security validation failed: Dangerous operation detected: " ++ p.1) := by
      unfold validate_script
      rw [hfind]
    refine ⟨hval, ?_⟩
    intro hs rows id tempOk child cancelAt clock jp t1 t2 reg
    refine ⟨?_, ?_, ?_⟩ <;> simp [execute_script, hval]
  · intro s hany
    obtain ⟨x, hx, hpx⟩ := List.any_eq_true.mp hany
    cases hf : dangerous_patterns.find? (fun q => is_match q.2 s.toList) with
    | some q => rfl
    | none => exact absurd hpx (by simpa using List.find?_eq_none.mp hf x hx)
  · intro s hnone
    have hf : dangerous_patterns.find? (fun q => is_match q.2 s.toList) = none := by
      refine List.find?_eq_none.mpr ?_
      intro x hx
      have := List.any_eq_false.mp hnone x hx
      simpa using this
    unfold validate_script
    rw [hf]

/-- Witness for C1: `import os` matches the first pattern and is rejected
with the pattern named; a benign script validates `Ok`. -/
theorem validate_blocks_execution_witness :
    validate_script "import os" =
      .error ("Security validation failed: Dangerous operation detected: " ++ "import\\s+os") ∧
    validate_script "x = 1" = .ok () :=
  ⟨(validate_blocks_execution.1 "import os"
      ("import\\s+os", lits "import" ++ [Tok.ws1] ++ lits "os") rfl).1,
   validate_blocks_execution.2.2 "x = 1" (by decide)⟩

/-- A read loop that observes no cancellation and no read error buffers
exactly the parse outcomes of all lines, in order. -/
theorem stream_loop_clean (cancelAt : Nat → Bool) (clock : Nat → Nat) :
    ∀ (ls : List RLine) (i : Nat) (buf : List (Option Json)) (prog : ExecutionProgress),
      (∀ k, k < i + ls.length → cancelAt k = false) →
      ls.all (fun l => !l.isReadErr) = true →
      ∃ progF, stream_loop cancelAt clock i ls buf prog =
        (.ok (buf ++ ls.map RLine.toJson), progF, []) := by
  intro ls
  induction ls with
  | nil =>
      intro i buf prog _ _
      exact ⟨prog, by simp [stream_loop]⟩
  | cons l rest ih =>
      intro i buf prog hnc herr
      have hci : cancelAt i = false := hnc i (by simp)
      cases l with
      | readErr => simp [RLine.isReadErr] at herr
      | line oj =>
          have herr' : rest.all (fun l => !l.isReadErr) = true := by
            rw [List.all_cons] at herr
            exact ((Bool.and_eq_true _ _).mp herr).2
          obtain ⟨progF, hF⟩ := ih (i + 1) (buf ++ [oj]) (step_line clock i prog oj)
            (fun k hk => hnc k (by simp at hk ⊢; omega)) herr'
          refine ⟨progF, ?_⟩
          simp [stream_loop, hci, hF, RLine.toJson, List.append_assoc]

/-- A read loop whose cancellation flag is first observed set at iteration
`i0`, with a line remaining, kills the child there and fails with
"Execution cancelled". -/
theorem stream_loop_cancel (cancelAt : Nat → Bool) (clock : Nat → Nat) :
    ∀ (ls : List RLine) (i i0 : Nat) (buf : List (Option Json)) (prog : ExecutionProgress),
      i ≤ i0 → i0 - i < ls.length →
      cancelAt i0 = true →
      (∀ k, i ≤ k → k < i0 → cancelAt k = false) →
      (ls.take (i0 - i)).all (fun l => !l.isReadErr) = true →
      ∃ progF, stream_loop cancelAt clock i ls buf prog =
        (.error "Execution cancelled", progF, [Event.kill]) := by
  intro ls
  induction ls with
  | nil =>
      intro i i0 buf prog _ hlt _ _ _
      simp at hlt
  | cons l rest ih =>
      intro i i0 buf prog hle hlt hset hfirst htake
      by_cases heq : i = i0
      · subst heq
        exact ⟨prog, by simp [stream_loop, hset]⟩
      · have hlt2 : i < i0 := lt_of_le_of_ne hle heq
        have hci : cancelAt i = false := hfirst i le_rfl hlt2
        cases l with
        | readErr =>
            rw [show i0 - i = (i0 - i - 1) + 1 by omega] at htake
            simp [List.take_succ_cons, RLine.isReadErr] at htake
        | line oj =>
            have htake' : (rest.take (i0 - (i + 1))).all (fun l => !l.isReadErr) = true := by
              rw [show i0 - i = (i0 - i - 1) + 1 by omega] at htake
              rw [show i0 - (i + 1) = i0 - i - 1 by omega]
              rw [List.take_succ_cons, List.all_cons] at htake
              exact ((Bool.and_eq_true _ _).mp htake).2
            obtain ⟨progF, hF⟩ := ih (i + 1) i0 (buf ++ [oj]) (step_line clock i prog oj)
              (by omega) (by simp at hlt ⊢; omega) hset
              (fun k hk1 hk2 => hfirst k (by omega) hk2) htake'
            exact ⟨progF, by simp [stream_loop, hci, hF]⟩

/-- C2: when the child exits 0 (after a run with no cancellation observed
and no read error), the run's outcome is decoded from the last buffered
stdout line — scanning most-recent to oldest — that parses as JSON and
whose `type` is not `progress` (non-JSON lines are skipped as candidates);
if no such line exists the run fails with the no-result-found error. -/
theorem result_from_last_nonprogress_line (execution_id : String)
    (child : ChildBehavior) (cancelAt : Nat → Bool) (clock : Nat → Nat)
    (prog0 : ExecutionProgress) (t1 t2 : Nat)
    (hspawn : child.spawnOk = true) (hstdin : child.stdinOk = true)
    (hnc : ∀ k, k < child.lines.length → cancelAt k = false)
    (hnoerr : child.lines.all (fun l => !l.isReadErr) = true)
    (hexit : child.exitSuccess = true) :
    (execute_script_internal execution_id child cancelAt clock prog0 t1 t2).1 =
      match find_result_line (child.lines.map RLine.toJson) with
      | none => .error "No result found in script output"
      | some j =>
          match parse_result j with
          | .error e => .error e
          | .ok payload =>
              .ok { execution_id := execution_id, started_at := t1,
                    completed_at := some t2, result := payload, error := none } := by
  obtain ⟨progF, hF⟩ := stream_loop_clean cancelAt clock child.lines 0 [] prog0
    (fun k hk => hnc k (by simpa using hk)) hnoerr
  unfold execute_script_internal
  rw [hspawn, hstdin, hF]
  simp only [List.nil_append, hexit, if_true]
  cases hfind : find_result_line (child.lines.map RLine.toJson) with
  | none => simp
  | some j =>
      cases hp : parse_result j with
      | error e => simp [hp]
      | ok payload => simp [hp]

def c2child : ChildBehavior :=
  { spawnOk := true, stdinOk := true
    lines :=
      [RLine.line (some (Json.obj [("type", Json.str "progress"), ("processed", Json.num 1),
        ("total", Json.num 2), ("step", Json.str "s")])),
       RLine.line none,
       RLine.line (some (Json.obj [("type", Json.str "error"), ("message", Json.str "m")]))]
    exitSuccess := true, stderr := "" }

/-- Witness for C2: a run with one progress line, one non-JSON line and one
result line. -/
theorem result_from_last_nonprogress_line_witness :
    (execute_script_internal "e1" c2child (fun _ => false) (fun _ => 0)
        (ExecutionProgress.new "e1" 2 0) 0 7).1 =
      match find_result_line (c2child.lines.map RLine.toJson) with
      | none => .error "No result found in script output"
      | some j =>
          match parse_result j with
          | .error e => .error e
          | .ok payload =>
              .ok { execution_id := "e1", started_at := 0,
                    completed_at := some 7, result := payload, error := none } :=
  result_from_last_nonprogress_line "e1" c2child (fun _ => false) (fun _ => 0)
    (ExecutionProgress.new "e1" 2 0) 0 7 rfl rfl (fun k _ => rfl) (by decide) rfl

/-- C3: if the shared cancellation flag of a running execution is observed
set (first at iteration `i0` of the read loop, with a line remaining), the
runner kills the child and the run returns exactly the failure "Execution
cancelled" — never a generic failure and never a success; and
`cancel_execution` on a registered id is what sets that flag, succeeding
and flipping `cancelled` to `true`. -/
theorem cancellation_kills_and_reports (execution_id : String)
    (child : ChildBehavior) (cancelAt : Nat → Bool) (clock : Nat → Nat)
    (prog0 : ExecutionProgress) (t1 t2 : Nat) (i0 : Nat)
    (hspawn : child.spawnOk = true) (hstdin : child.stdinOk = true)
    (hi0 : i0 < child.lines.length)
    (hset : cancelAt i0 = true)
    (hfirst : ∀ k, k < i0 → cancelAt k = false)
    (hpre : (child.lines.take i0).all (fun l => !l.isReadErr) = true) :
    (execute_script_internal execution_id child cancelAt clock prog0 t1 t2).1 =
      .error "Execution cancelled" ∧
    (execute_script_internal execution_id child cancelAt clock prog0 t1 t2).2.1 =
      [Event.spawn, Event.kill] ∧
    (∀ (r : Registry) (id : String) (e : ActiveExec), r id = some e →
      cancel_execution r id =
        .ok (Registry.insert r id { progress := e.progress, cancelled := true })) := by
  obtain ⟨progF, hF⟩ := stream_loop_cancel cancelAt clock child.lines 0 i0 [] prog0
    (Nat.zero_le i0) (by simpa using hi0) hset (fun k _ hk => hfirst k hk) hpre
  refine ⟨?_, ?_, ?_⟩
  · unfold execute_script_internal
    rw [hspawn, hstdin, hF]
    rfl
  · unfold execute_script_internal
    rw [hspawn, hstdin, hF]
    rfl
  · intro r id e he
    simp [cancel_execution, he]

def c3child : ChildBehavior :=
  { spawnOk := true, stdinOk := true, lines := [RLine.line none],
    exitSuccess := true, stderr := "" }

/-- Witness for C3: a run cancelled before its first output line. -/
theorem cancellation_kills_and_reports_witness :
    (execute_script_internal "e2" c3child (fun _ => true) (fun _ => 0)
        (ExecutionProgress.new "e2" 0 0) 0 0).1 = .error "Execution cancelled" ∧
    (execute_script_internal "e2" c3child (fun _ => true) (fun _ => 0)
        (ExecutionProgress.new "e2" 0 0) 0 0).2.1 = [Event.spawn, Event.kill] := by
  have h := cancellation_kills_and_reports "e2" c3child (fun _ => true) (fun _ => 0)
    (ExecutionProgress.new "e2" 0 0) 0 0 0 rfl rfl (by decide) rfl
    (fun k hk => absurd hk (Nat.not_lt_zero k)) (by decide)
  exact ⟨h.1, h.2.1⟩

def panicChild : ChildBehavior :=
  { spawnOk := true, stdinOk := true, lines := [], exitSuccess := true, stderr := "" }

/-- C4 counterexample: when the spawned runner task panics (`JoinError`),
`execute_script` returns early from its `exec.handle.await` error branch —
before the `remove_file` call — so the trace records the temp-file creation
but no removal: the temp file still exists after `execute_script` returns,
refuting removal "on every exit path ... including panics". -/
theorem temp_file_leak_on_panic :
    Event.tempCreate ∈ (execute_script "x = 1" [] [] "id0" true panicChild
      (fun _ => false) (fun _ => 0) true 0 0 (fun _ => none)).2.1 ∧
    Event.tempRemove ∉ (execute_script "x = 1" [] [] "id0" true panicChild
      (fun _ => false) (fun _ => 0) true 0 0 (fun _ => none)).2.1 ∧
    (execute_script "x = 1" [] [] "id0" true panicChild
      (fun _ => false) (fun _ => 0) true 0 0 (fun _ => none)).1 =
      .error "Task execution failed" :=
  ⟨by decide, by decide, rfl⟩

/-- C4 (amended): the temp script file is removed on every exit path of the
run on which the spawned runner task itself returns — success, interpreter
error, spawn/stdin failure and cancellation — i.e. whenever `joinPanic` is
false, a created temp file is removed; removal is not guaranteed when the
runner task panics. -/
theorem temp_file_removed_without_panic (script : String) (hs : List String)
    (rows : List (List String)) (id : String) (tempOk : Bool)
    (child : ChildBehavior) (cancelAt : Nat → Bool) (clock : Nat → Nat)
    (t1 t2 : Nat) (reg : Registry)
    (h : Event.tempCreate ∈
      (execute_script script hs rows id tempOk child cancelAt clock false t1 t2 reg).2.1) :
    Event.tempRemove ∈
      (execute_script script hs rows id tempOk child cancelAt clock false t1 t2 reg).2.1 := by
  unfold execute_script at h ⊢
  cases hv : validate_script script with
  | error e => rw [hv] at h; simp at h
  | ok u =>
      cases tempOk with
      | false => rw [hv] at h; simp at h
      | true => simp

/-- Witness for C4 (amended): a concrete non-panicking run removes its temp
file. -/
theorem temp_file_removed_without_panic_witness :
    Event.tempRemove ∈ (execute_script "x = 1" [] [] "id1" true panicChild
      (fun _ => false) (fun _ => 0) false 0 0 (fun _ => none)).2.1 :=
  temp_file_removed_without_panic "x = 1" [] [] "id1" true panicChild
    (fun _ => false) (fun _ => 0) 0 0 (fun _ => none) (by decide)

/-! ## C5: classification of interpreter errors -/

inductive PyErrCat where
  | indentation
  | syntaxCat
  | nameCat
  | typeCat
  | attributeCat
  | valueCat
  | keyCat
  | indexCat
  | unclassified
deriving DecidableEq

/-- The marker category of a single stderr line, with the source's
within-line priority order. -/
def line_marker (line : String) : Option PyErrCat :=
  if containsStr line "IndentationError" then some .indentation
  else if containsStr line "SyntaxError" then some .syntaxCat
  else if containsStr line "NameError" then some .nameCat
  else if containsStr line "TypeError" then some .typeCat
  else if containsStr line "AttributeError" then some .attributeCat
  else if containsStr line "ValueError" then some .valueCat
  else if containsStr line "KeyError" then some .keyCat
  else if containsStr line "IndexError" then some .indexCat
  else none

/-- The category `parse_python_error` classifies into: the marker category
of the first line carrying any marker, scanning stderr lines top to
bottom. -/
def classify_stderr (stderr : String) : PyErrCat :=
  ((rustLines stderr).findSome? line_marker).getD .unclassified

/-- The message prefix each category produces (the value/key/index
categories have several message heads in the source). -/
def catPrefixOk : PyErrCat → String → Prop
  | .indentation, m => strStartsWith m "Python indentation error" = true
  | .syntaxCat, m => strStartsWith m "Python syntax error" = true
  | .nameCat, m => strStartsWith m "Python name error" = true
  | .typeCat, m => strStartsWith m "Python type error" = true
  | .attributeCat, m => strStartsWith m "Python attribute error" = true
  | .valueCat, m => strStartsWith m "Data format error" = true ∨
      strStartsWith m "Data value error" = true ∨
      strStartsWith m "Python value error" = true
  | .keyCat, m => strStartsWith m "Data key error" = true ∨
      strStartsWith m "Python key error" = true
  | .indexCat, m => strStartsWith m "Data index error" = true ∨
      strStartsWith m "Python index error" = true
  | .unclassified, m =>
      m = "Script execution failed. Please check the generated script for errors." ∨
      strStartsWith m "Script execution failed:" = true

theorem listIsPrefixOf_append (p l m : List Char) (h : listIsPrefixOf p l = true) :
    listIsPrefixOf p (l ++ m) = true := by
  induction p generalizing l with
  | nil => rfl
  | cons a as ih =>
      cases l with
      | nil => simp [listIsPrefixOf] at h
      | cons b bs =>
          simp only [listIsPrefixOf, List.cons_append, Bool.and_eq_true] at h ⊢
          exact ⟨h.1, ih bs h.2⟩

theorem strStartsWith_append (pre a b : String) (h : strStartsWith a pre = true) :
    strStartsWith (a ++ b) pre = true := by
  have hd : (a ++ b).toList = a.toList ++ b.toList := rfl
  unfold strStartsWith at h ⊢
  rw [hd]
  exact listIsPrefixOf_append _ _ _ h

/-- One line of the classification loop agrees with its marker category. -/
theorem classify_line_marker (full : List String) (line : String) :
    match line_marker line with
    | none => classify_line full line = none
    | some cat => ∃ m, classify_line full line = some m ∧ catPrefixOk cat m := by
  unfold line_marker classify_line
  cases h1 : containsStr line "IndentationError" with
  | true =>
      simp only [h1, if_true]
      refine ⟨_, rfl, ?_⟩
      simp only [catPrefixOk]
      cases full.find? (fun l =>
          containsStr l "unexpected indent" || containsStr l "expected an indented block") with
      | some detail => dsimp only; exact strStartsWith_append _ _ _ (by decide)
      | none => dsimp only; decide
  | false =>
  simp only [h1, Bool.false_eq_true, if_false]
  cases h2 : containsStr line "SyntaxError" with
  | true =>
      simp only [h2, if_true]
      refine ⟨_, rfl, ?_⟩
      simp only [catPrefixOk]
      cases full.find? (fun l => containsStr l "invalid syntax") with
      | some detail => dsimp only; exact strStartsWith_append _ _ _ (by decide)
      | none => dsimp only; decide
  | false =>
  simp only [h2, Bool.false_eq_true, if_false]
  cases h3 : containsStr line "NameError" with
  | true =>
      simp only [h3, if_true]
      refine ⟨_, rfl, ?_⟩
      simp only [catPrefixOk]
      cases full.find? (fun l => containsStr l "is not defined") with
      | some detail =>
          dsimp only
          cases full.find? (fun l => containsStr l "NameError:") with
          | some msg_line => dsimp only; exact strStartsWith_append _ _ _ (by decide)
          | none => dsimp only; exact strStartsWith_append _ _ _ (by decide)
      | none => dsimp only; decide
  | false =>
  simp only [h3, Bool.false_eq_true, if_false]
  cases h4 : containsStr line "TypeError" with
  | true =>
      simp only [h4, if_true]
      refine ⟨_, rfl, ?_⟩
      simp only [catPrefixOk]
      cases full.find? (fun l =>
          containsStr l "unsupported operand" || containsStr l "not supported") with
      | some detail => dsimp only; exact strStartsWith_append _ _ _ (by decide)
      | none => dsimp only; decide
  | false =>
  simp only [h4, Bool.false_eq_true, if_false]
  cases h5 : containsStr line "AttributeError" with
  | true =>
      simp only [h5, if_true]
      refine ⟨_, rfl, ?_⟩
      simp only [catPrefixOk]
      cases full.find? (fun l => containsStr l "has no attribute") with
      | some detail => dsimp only; exact strStartsWith_append _ _ _ (by decide)
      | none => dsimp only; decide
  | false =>
  simp only [h5, Bool.false_eq_true, if_false]
  cases h6 : containsStr line "ValueError" with
  | true =>
      simp only [h6, if_true]
      refine ⟨_, rfl, ?_⟩
      simp only [catPrefixOk]
      cases full.find? (fun l =>
          containsStr l "time data" && containsStr l "does not match format") with
      | some detail => dsimp only; exact Or.inl (strStartsWith_append _ _ _ (by decide))
      | none =>
          dsimp only
          cases full.find? (fun l => containsStr l "ValueError") with
          | some detail =>
              dsimp only
              cases full.find? (fun l => strStartsWith l "ValueError:") with
              | some msg_line =>
                  dsimp only; exact Or.inr (Or.inl (strStartsWith_append _ _ _ (by decide)))
              | none =>
                  dsimp only; exact Or.inr (Or.inl (strStartsWith_append _ _ _ (by decide)))
          | none => dsimp only; exact Or.inr (Or.inr (by decide))
  | false =>
  simp only [h6, Bool.false_eq_true, if_false]
  cases h7 : containsStr line "KeyError" with
  | true =>
      simp only [h7, if_true]
      refine ⟨_, rfl, ?_⟩
      simp only [catPrefixOk]
      cases full.find? (fun l => containsStr l "KeyError") with
      | some detail =>
          dsimp only
          cases full.find? (fun l => strStartsWith l "KeyError:") with
          | some msg_line => dsimp only; exact Or.inl (strStartsWith_append _ _ _ (by decide))
          | none => dsimp only; exact Or.inl (strStartsWith_append _ _ _ (by decide))
      | none => dsimp only; exact Or.inr (by decide)
  | false =>
  simp only [h7, Bool.false_eq_true, if_false]
  cases h8 : containsStr line "IndexError" with
  | true =>
      simp only [h8, if_true]
      refine ⟨_, rfl, ?_⟩
      simp only [catPrefixOk]
      cases full.find? (fun l => containsStr l "IndexError") with
      | some detail =>
          dsimp only
          cases full.find? (fun l => strStartsWith l "IndexError:") with
          | some msg_line => dsimp only; exact Or.inl (strStartsWith_append _ _ _ (by decide))
          | none => dsimp only; exact Or.inl (strStartsWith_append _ _ _ (by decide))
      | none => dsimp only; exact Or.inr (by decide)
  | false =>
  simp only [h8, Bool.false_eq_true, if_false]

/-- The line-ordered scans of `line_marker` and `classify_line` agree. -/
theorem findSome_classify (full : List String) :
    ∀ ls : List String,
      match ls.findSome? line_marker with
      | none => ls.findSome? (classify_line full) = none
      | some cat => ∃ m, ls.findSome? (classify_line full) = some m ∧ catPrefixOk cat m := by
  intro ls
  induction ls with
  | nil => simp [List.findSome?_nil]
  | cons hd tl ih =>
      have h := classify_line_marker full hd
      cases hm : line_marker hd with
      | some cat =>
          rw [hm] at h
          obtain ⟨m, hc, hp⟩ := h
          have e1 : (hd :: tl).findSome? line_marker = some cat := by
            rw [List.findSome?_cons, hm]
          have e2 : (hd :: tl).findSome? (classify_line full) = some m := by
            rw [List.findSome?_cons, hc]
          rw [e1, e2]
          exact ⟨m, rfl, hp⟩
      | none =>
          rw [hm] at h
          have e1 : (hd :: tl).findSome? line_marker = tl.findSome? line_marker := by
            rw [List.findSome?_cons, hm]
          have e2 : (hd :: tl).findSome? (classify_line full) =
              tl.findSome? (classify_line full) := by
            rw [List.findSome?_cons, h]
          rw [e1, e2]
          exact ih

/-- C5 (amended): `parse_python_error` scans stderr line by line from the
top; the first line containing any marker decides the category, with the
source's priority order applied among markers of that same line (not
across lines), and the produced message carries that category's head; when
no line carries a marker the message is the generic fallback built from
the first few non-empty stderr lines. -/
theorem parse_python_error_category_spec (stderr : String) :
    catPrefixOk (classify_stderr stderr) (parse_python_error stderr) := by
  have h := findSome_classify (rustLines stderr) (rustLines stderr)
  unfold classify_stderr parse_python_error
  cases hm : (rustLines stderr).findSome? line_marker with
  | some cat =>
      rw [hm] at h
      obtain ⟨m, hc, hp⟩ := h
      simp only [hm, hc, Option.getD_some]
      exact hp
  | none =>
      rw [hm] at h
      simp only [hm, h, Option.getD_none]
      split
      · exact Or.inl rfl
      · exact Or.inr (strStartsWith_append _ _ _ (by decide))

def c5ex : String := "SyntaxError: bad\nIndentationError: unexpected indent"

/-- C5 counterexample: `IndentationError` (the highest-priority marker)
appears in stderr, but because a lower-priority marker (`SyntaxError`)
occurs on an earlier line, the classification is the syntax category — a
higher-priority marker anywhere in stderr does not win over a
lower-priority one on an earlier line. -/
theorem error_priority_is_per_line :
    containsStr c5ex "IndentationError" = true ∧
    parse_python_error c5ex =
      "Python syntax error: The generated script contains invalid syntax. Please try regenerating the script." ∧
    strStartsWith (parse_python_error c5ex) "Python indentation error" = false := by
  refine ⟨by decide, by decide, by decide⟩

/-! ## C8: transformation payload round-trip -/

theorem optMapM_roundtrip {α : Type} (f : α → Json) (g : Json → Option α)
    (h : ∀ a, g (f a) = some a) : ∀ xs : List α, optMapM g (xs.map f) = some xs := by
  intro xs
  induction xs with
  | nil => rfl
  | cons x rest ih => simp [List.map_cons, optMapM, h, ih]

theorem dataChange_roundtrip (c : DataChange) :
    DataChange.fromJson (DataChange.toJson c) = some c := rfl

theorem changePreview_roundtrip (c : ChangePreview) :
    ChangePreview.fromJson (ChangePreview.toJson c) = some c := rfl

theorem change_roundtrip (c : Change) :
    Change.fromJson (Change.toJson c) = some c := by
  cases c with
  | Cell r ci o n => rfl
  | AddColumn ci cn pos dv => cases pos <;> cases dv <;> rfl
  | RemoveColumn ci cn => rfl
  | RenameColumn ci o n => rfl
  | AddRow ri pos rd =>
      cases rd with
      | none => cases pos <;> rfl
      | some xs =>
          have hm : optMapM Json.as_str (xs.map Json.str) = some xs :=
            optMapM_roundtrip Json.str Json.as_str (fun a => rfl) xs
          cases pos <;>
            simp [Change.toJson, Change.fromJson, optRowField, optRowToJson, Json.getField,
              Json.get, RowPosition.fromJson, RowPosition.toJson, Json.as_u64, Json.as_str, hm]
  | RemoveRow ri => rfl

theorem payload_roundtrip_legacy (dcs : List DataChange) (pvs : List ChangePreview) :
    ResultPayload.fromJson (ResultPayload.toJson (.Transformation (some dcs) none pvs)) =
      some (.Transformation (some dcs) none pvs) := by
  have h1 : optMapM DataChange.fromJson (dcs.map DataChange.toJson) = some dcs :=
    optMapM_roundtrip _ _ dataChange_roundtrip dcs
  have h2 : optMapM ChangePreview.fromJson (pvs.map ChangePreview.toJson) = some pvs :=
    optMapM_roundtrip _ _ changePreview_roundtrip pvs
  simp [ResultPayload.toJson, ResultPayload.fromJson, optListField, Json.get, Json.as_str,
    Json.as_array, h1, h2]

theorem payload_roundtrip_unified (ucs : List Change) (pvs : List ChangePreview) :
    ResultPayload.fromJson (ResultPayload.toJson (.Transformation none (some ucs) pvs)) =
      some (.Transformation none (some ucs) pvs) := by
  have h1 : optMapM Change.fromJson (ucs.map Change.toJson) = some ucs :=
    optMapM_roundtrip _ _ change_roundtrip ucs
  have h2 : optMapM ChangePreview.fromJson (pvs.map ChangePreview.toJson) = some pvs :=
    optMapM_roundtrip _ _ changePreview_roundtrip pvs
  simp [ResultPayload.toJson, ResultPayload.fromJson, optListField, Json.get, Json.as_str,
    Json.as_array, h1, h2]

/-- C8 (amended): the `Transformation` payload type accepts both the legacy
flat change list and the unified change list, both may be present
simultaneously, and a payload with only legacy changes is fully
representable and distinguishable — including through a serde
serialization round-trip — from one with only unified changes; however,
decoding a result line through `parse_result` populates only the legacy
list (always `Some`) and always leaves `unified_changes` as `None`. -/
theorem transformation_payload_roundtrip :
    (∀ (j : Json) (chs : Option (List DataChange)) (uchs : Option (List Change))
       (pv : List ChangePreview),
       parse_result j = .ok (.Transformation chs uchs pv) → uchs = none) ∧
    (∀ (dcs : List DataChange) (ucs : List Change) (pvs : List ChangePreview),
       ResultPayload.Transformation (some dcs) none pvs ≠
         ResultPayload.Transformation none (some ucs) pvs ∧
       ResultPayload.toJson (.Transformation (some dcs) none pvs) ≠
         ResultPayload.toJson (.Transformation none (some ucs) pvs) ∧
       ResultPayload.fromJson (ResultPayload.toJson (.Transformation (some dcs) none pvs)) =
         some (.Transformation (some dcs) none pvs) ∧
       ResultPayload.fromJson (ResultPayload.toJson (.Transformation none (some ucs) pvs)) =
         some (.Transformation none (some ucs) pvs)) := by
  constructor
  · intro j chs uchs pv hp
    unfold parse_result at hp
    split at hp <;> simp_all
  · intro dcs ucs pvs
    refine ⟨by simp, ?_, payload_roundtrip_legacy dcs pvs, payload_roundtrip_unified ucs pvs⟩
    simp [ResultPayload.toJson]

def c8ex : Json :=
  .obj [("type", .str "transformation"),
        ("unified_changes", .arr [.obj [("type", Json.str "remove_row"), ("row_index", Json.num 0)]]),
        ("preview", .arr [])]

/-- C8 counterexample: a decoded transformation result line carrying a
(decodable) unified change yields a payload whose `unified_changes` is
`None` — `parse_result` never accepts the unified list from a result line
(its `unified_changes` is hard-coded `None`). -/
theorem parse_result_drops_unified_changes :
    parse_result c8ex = .ok (.Transformation (some []) none []) ∧
    c8ex.get "unified_changes" =
      some (.arr [.obj [("type", Json.str "remove_row"), ("row_index", Json.num 0)]]) ∧
    Change.fromJson (.obj [("type", Json.str "remove_row"), ("row_index", Json.num 0)]) =
      some (.RemoveRow 0) :=
  ⟨rfl, rfl, rfl⟩

/-- Witness for C8 (amended), applying the theorem at concrete inputs. -/
theorem transformation_payload_roundtrip_witness :
    parse_result c8ex = .ok (.Transformation (some []) none []) ∧
    (none : Option (List Change)) = none ∧
    ResultPayload.fromJson (ResultPayload.toJson
        (.Transformation (some [⟨0, 1, "a", "b"⟩]) none [])) =
      some (.Transformation (some [⟨0, 1, "a", "b"⟩]) none []) :=
  ⟨rfl, transformation_payload_roundtrip.1 c8ex (some []) none [] rfl,
   (transformation_payload_roundtrip.2 [⟨0, 1, "a", "b"⟩] [] []).2.2.1⟩

end CsvEd
